import Mathlib

/-!
# Verification of the Kokkos atomic primitive dispatch and generic fallback engine

Shallow embedding of the atomics core found in
`core/src/impl/Kokkos_Atomic_GNU.hpp`, `core/src/impl/Kokkos_Atomic_Deprecated.hpp`,
`core/src/impl/Kokkos_Atomic_View.hpp` and `Kokkos_MemoryOrder.hpp`.

Modelling conventions:
* A single atomic target cell of element type `α` is modelled by its current
  value; an operation on the cell is a pure function returning the operation
  result together with the new cell value.
* The GCC `__atomic_*` builtins are modelled by their documented sequential
  semantics (each builtin is one indivisible step).
* Machine integers of width `w` are modelled as `Nat` with explicit `% 2 ^ w`.
* The compile-time trait machinery (`std::is_pointer`, `enable_if` dispatch,
  order-validity `static_assert` tables) is modelled by boolean predicates over
  an explicit model of the relevant C++ type traits.
-/

namespace KokkosSpec

/-- The five memory-order marker types of `Kokkos_MemoryOrder.hpp`
(`MemoryOrderRelaxed` … `MemoryOrderSeqCst`). -/
inductive MemoryOrder
  | Relaxed
  | Acquire
  | Release
  | AcqRel
  | SeqCst
deriving DecidableEq, Repr

/-- The numeric ordering identifier carried by each marker type:
the GCC constants `__ATOMIC_RELAXED = 0`, `__ATOMIC_ACQUIRE = 2`,
`__ATOMIC_RELEASE = 3`, `__ATOMIC_ACQ_REL = 4`, `__ATOMIC_SEQ_CST = 5`. -/
def MemoryOrder.value : MemoryOrder → Nat
  | .Relaxed => 0
  | .Acquire => 2
  | .Release => 3
  | .AcqRel => 4
  | .SeqCst => 5

/-- `Impl::valid_memory_order`: true for all five marker types
(the default `false` case only applies to non-order types, which cannot be
formed in this embedding). -/
def valid_memory_order : MemoryOrder → Bool := fun _ => true

/-- `Impl::valid_atomic_load_order`: Relaxed, Acquire and SeqCst. -/
def valid_atomic_load_order : MemoryOrder → Bool
  | .Relaxed => true
  | .Acquire => true
  | .SeqCst => true
  | _ => false

/-- `Impl::valid_atomic_store_order`: Relaxed, Release and SeqCst. -/
def valid_atomic_store_order : MemoryOrder → Bool
  | .Relaxed => true
  | .Release => true
  | .SeqCst => true
  | _ => false

/-- `Impl::valid_atomic_compare_exchange_order`: exactly the ten
(SuccessOrder, FailureOrder) specializations of `Kokkos_MemoryOrder.hpp`
that derive from `std::true_type`; every other pair derives from
`std::false_type`. -/
def valid_atomic_compare_exchange_order : MemoryOrder → MemoryOrder → Bool
  | .Relaxed, .Relaxed => true
  | .Acquire, .Relaxed => true
  | .Release, .Relaxed => true
  | .AcqRel , .Relaxed => true
  | .SeqCst , .Relaxed => true
  | .Acquire, .Acquire => true
  | .Release, .Acquire => true
  | .AcqRel , .Acquire => true
  | .SeqCst , .Acquire => true
  | .SeqCst , .SeqCst  => true
  | _, _ => false

/-- The (success, failure) validity predicate exactly as the spec sentence for
claim C3 words it: the failure order is Relaxed or Acquire, the failure order
is no stronger than the success order, and the failure order is never Release
or AcqRel.  Used only to compare the spec against
`valid_atomic_compare_exchange_order`. -/
def claimed_cas_order_valid (s f : MemoryOrder) : Bool :=
  decide (f = MemoryOrder.Relaxed ∨ f = MemoryOrder.Acquire)
  && decide (f.value ≤ s.value)
  && !decide (f = MemoryOrder.Release ∨ f = MemoryOrder.AcqRel)

/-- The amended validity predicate for claim C3: the failure order is Relaxed,
Acquire or SeqCst, is numerically no stronger than the success order, and is
never Release or AcqRel. -/
def amended_cas_order_valid (s f : MemoryOrder) : Bool :=
  decide (f = MemoryOrder.Relaxed ∨ f = MemoryOrder.Acquire
          ∨ f = MemoryOrder.SeqCst)
  && decide (f.value ≤ s.value)
  && !decide (f = MemoryOrder.Release ∨ f = MemoryOrder.AcqRel)

/-! ## Primitive dispatch layer: type-trait model

`Impl::explicit_atomic_op`, `Impl::generic_atomic_op`,
`Impl::arithmetic_atomic_op` and `Impl::non_arithmetic_atomic_op` from
`Kokkos_Atomic_GNU.hpp` are compile-time predicates over a C++ type `T`.
The relevant traits of `T` are modelled explicitly. -/

/-- Model of the C++ type traits consulted by the dispatch predicates. -/
structure TypeModel where
  is_volatile : Bool
  is_pointer : Bool
  is_integral : Bool
  /-- whether `T` is exactly `bool` (`std::is_same<T,bool>`) -/
  is_bool : Bool
  /-- `sizeof(T)` in bytes -/
  size : Nat
  is_trivially_copyable : Bool
deriving DecidableEq, Repr

/-- `Impl::max_atomic_integer_size`: `sizeof(__int128) = 16` when
`KOKKOS_ENABLE_INT128` is defined, otherwise `sizeof(int64_t) = 8`. -/
def max_atomic_integer_size (int128 : Bool) : Nat :=
  if int128 then 16 else 8

/-- `Impl::explicit_atomic_op<T>`: non-volatile, and a pointer or an integral
type of size at most `max_atomic_integer_size`. -/
def explicit_atomic_op (int128 : Bool) (T : TypeModel) : Bool :=
  !T.is_volatile
  && (T.is_pointer
      || (T.is_integral && decide (T.size ≤ max_atomic_integer_size int128)))

/-- `Impl::generic_atomic_op<T>`: non-volatile, and not (pointer or small
integral). -/
def generic_atomic_op (int128 : Bool) (T : TypeModel) : Bool :=
  !T.is_volatile
  && !(T.is_pointer
       || (T.is_integral && decide (T.size ≤ max_atomic_integer_size int128)))

/-- `Impl::arithmetic_atomic_op<T>`: non-volatile, and a pointer or a small
integral type that is not `bool`. -/
def arithmetic_atomic_op (int128 : Bool) (T : TypeModel) : Bool :=
  !T.is_volatile
  && (T.is_pointer
      || (T.is_integral && decide (T.size ≤ max_atomic_integer_size int128)
          && !T.is_bool))

/-- `Impl::non_arithmetic_atomic_op<T>`: non-volatile, and not (pointer or
small non-bool integral). -/
def non_arithmetic_atomic_op (int128 : Bool) (T : TypeModel) : Bool :=
  !T.is_volatile
  && !(T.is_pointer
       || (T.is_integral && decide (T.size ≤ max_atomic_integer_size int128)
           && !T.is_bool))

/-- Type model of C++ `bool`: integral, one byte, not volatile. -/
def boolTypeModel : TypeModel :=
  { is_volatile := false, is_pointer := false, is_integral := true
    is_bool := true, size := 1, is_trivially_copyable := true }

/-- Type model of C++ `int`: integral, four bytes, not volatile. -/
def intTypeModel : TypeModel :=
  { is_volatile := false, is_pointer := false, is_integral := true
    is_bool := false, size := 4, is_trivially_copyable := true }

/-! ## Primitive load / store / exchange / compare-exchange semantics

One atomic cell holding a value of type `α`.  Every builtin call is one
indivisible step; an operation returns its result together with the new cell
value. -/

/-- `atomic_load` (both the explicit `__atomic_load_n` overload and the
generic `__atomic_load` overload): returns the cell contents. -/
def atomic_load (mem : α) (_order : MemoryOrder) : α := mem

/-- `atomic_store` (both the explicit `__atomic_store_n` overload and the
generic `__atomic_store` overload): the new cell value is `val`. -/
def atomic_store (_mem val : α) (_order : MemoryOrder) : α := val

/-- Explicit-path `atomic_exchange`, forwarding to `__atomic_exchange_n`:
returns the previous contents and installs `val`.
Result is `(returned value, new cell value)`. -/
def atomic_exchange_explicit (mem val : α) (_order : MemoryOrder) : α × α :=
  (mem, val)

/-- Generic-path `atomic_exchange` exactly as written in
`Kokkos_Atomic_GNU.hpp` lines 201-215: it declares an uninitialized local
`ret`, then calls `__atomic_store( ptr, &val, &ret, Order::value )` — the
three-argument store builtin handed four arguments, where the exchange
builtin `__atomic_exchange( ptr, &val, &ret, order )` was plainly intended —
and returns `ret`.  The store of `val` happens; `ret` is never written with
the previous contents.  The indeterminate contents of `ret` are modelled by
the explicit `junk` parameter.  Result is `(returned value, new cell value)`. -/
def atomic_exchange_generic (_mem val junk : α) (_order : MemoryOrder) : α × α :=
  (junk, val)

/-- Result of a compare-exchange call: the returned boolean, the new cell
value, and the new contents of `*expected`. -/
structure CasResult (α : Type) where
  success : Bool
  mem : α
  expected : α
deriving DecidableEq, Repr

/-- `atomic_compare_exchange` (strong).  Both the explicit overload
(`__atomic_compare_exchange_n` with `weak = false`) and the generic overload
(`__atomic_compare_exchange` with `weak = false`) forward to the builtin,
which never fails spuriously: if the cell equals `*expected` it installs
`desired` and returns true; otherwise it copies the cell into `*expected`
and returns false. -/
def atomic_compare_exchange [DecidableEq α] (mem expected desired : α)
    (_success_order _failure_order : MemoryOrder) : CasResult α :=
  if mem = expected then
    { success := true, mem := desired, expected := expected }
  else
    { success := false, mem := mem, expected := mem }

/-- Deprecated volatile-pointer `atomic_compare_exchange(ptr, compare, val)`
from `Kokkos_Atomic_Deprecated.hpp` lines 54-68: runs the strong
compare-exchange at (AcqRel, Relaxed) with `expected = compare` and
`desired = val`, then returns `val` when it succeeded and the refreshed
`expected` otherwise.  Result is `(returned value, new cell value)`. -/
def atomic_compare_exchange_deprecated [DecidableEq α]
    (mem compare val : α) : α × α :=
  let r := atomic_compare_exchange mem compare val
             MemoryOrder.AcqRel MemoryOrder.Relaxed
  (if r.success then val else r.expected, r.mem)

/-! ## Operation catalog and the generic CAS-loop engine

`Impl::atomic_fetch_op` / `Impl::atomic_op_fetch` (`Kokkos_Atomic_GNU.hpp`
lines 340-384) load the cell at Relaxed, compute `desired = Op::apply(expected,
val)`, and retry a weak compare-exchange until it succeeds, recomputing
`desired` from the refreshed `expected` after every failure.  A sequential run
of the loop is modelled with an explicit schedule `spur : List Bool` telling
whether each successive weak-CAS attempt fails spuriously; once the schedule
is exhausted, attempts no longer fail spuriously, so the loop terminates
(lock-freedom of the builtin).  A genuinely failed attempt refreshes
`expected` with the current cell value, after which — nothing else writing the
cell — the next non-spurious attempt succeeds. -/

/-- One sequential run of the CAS retry loop: cell value `mem`, current
`expected`, remaining spurious-failure schedule.  Returns
`(pre-image at the successful attempt, value installed)`; the installed value
is also the final cell value. -/
def casLoopRun [DecidableEq α] (op : α → α → α) (val : α) :
    List Bool → α → α → α × α
  | [], mem, expected =>
    if mem = expected then (expected, op expected val)
    else
      -- the failed attempt refreshed expected to mem; the next attempt is
      -- not spurious and the cell still holds mem, so it succeeds
      (mem, op mem val)
  | spurious :: rest, mem, expected =>
    if mem = expected ∧ spurious = false then (expected, op expected val)
    else casLoopRun op val rest mem mem

/-- `Impl::atomic_fetch_op`: returns the pre-image; the installed value is the
second component (the final cell value). -/
def atomic_fetch_op [DecidableEq α] (op : α → α → α) (mem val : α)
    (_order : MemoryOrder) (spur : List Bool) : α × α :=
  let expected := atomic_load mem MemoryOrder.Relaxed
  let r := casLoopRun op val spur mem expected
  (r.1, r.2)

/-- `Impl::atomic_op_fetch`: returns the value it installed (`desired`); the
second component is the final cell value. -/
def atomic_op_fetch [DecidableEq α] (op : α → α → α) (mem val : α)
    (_order : MemoryOrder) (spur : List Bool) : α × α :=
  let expected := atomic_load mem MemoryOrder.Relaxed
  let r := casLoopRun op val spur mem expected
  (r.2, r.2)

/-- The hardware fetch-then-op builtins (`__atomic_fetch_add`,
`__atomic_fetch_sub`, `__atomic_fetch_and`, `__atomic_fetch_or`,
`__atomic_fetch_xor`, `__atomic_fetch_nand`): indivisibly install
`op mem val` and return the previous contents.
Result is `(returned value, new cell value)`. -/
def fetch_op_builtin (op : α → α → α) (mem val : α)
    (_order : MemoryOrder) : α × α :=
  (mem, op mem val)

/-- The hardware op-then-fetch builtins (`__atomic_add_fetch` etc.):
indivisibly install `op mem val` and return the new contents.
Result is `(returned value, new cell value)`. -/
def op_fetch_builtin (op : α → α → α) (mem val : α)
    (_order : MemoryOrder) : α × α :=
  (op mem val, op mem val)

/-! ### Operation descriptors

`Kokkos_Atomic_GNU.hpp` includes `impl/Kokkos_Atomic_Ops.hpp` for the
`Impl::AddOper` … `Impl::RShiftOper` function objects, but that header is not
part of this repository snapshot.  They are modelled from the spec. -/

/-- Modelled from the spec: `Impl::AddOper::apply` of the missing
`Kokkos_Atomic_Ops.hpp`, the OperationDescriptor for `add`: a stateless pure
function `(current value, operand) ↦ current + operand` on machine integers of
width `w` bits, wrapping with standard two's-complement arithmetic. -/
def addOp (w : Nat) (a b : Nat) : Nat := (a + b) % 2 ^ w

/-- Modelled from the spec: `Impl::SubOper::apply`, the OperationDescriptor
for `sub`, two's-complement wrapping subtraction on width-`w` integers. -/
def subOp (w : Nat) (a b : Nat) : Nat := (a + (2 ^ w - b % 2 ^ w)) % 2 ^ w

/-- Modelled from the spec: `Impl::AndOper::apply`, bitwise and. -/
def andOp (w : Nat) (a b : Nat) : Nat := (a &&& b) % 2 ^ w

/-- Modelled from the spec: `Impl::OrOper::apply`, bitwise or. -/
def orOp (w : Nat) (a b : Nat) : Nat := (a ||| b) % 2 ^ w

/-- Modelled from the spec: `Impl::XorOper::apply`, bitwise exclusive or. -/
def xorOp (w : Nat) (a b : Nat) : Nat := (a ^^^ b) % 2 ^ w

/-- Modelled from the spec: `Impl::NandOper::apply`, bitwise not of and, on
width-`w` integers. -/
def nandOp (w : Nat) (a b : Nat) : Nat := ((a &&& b) ^^^ (2 ^ w - 1)) % 2 ^ w

/-- The agreement property of claim C6 for one operation: the direct hardware
fetch-and-operate builtin produces, for every cell value, operand, ordering
and spurious-failure schedule, the same `(returned value, new cell value)`
pair as the CAS-loop synthesis, in both the fetch-then-op and the
op-then-fetch form. -/
def builtin_agrees_with_loop (op : Nat → Nat → Nat) : Prop :=
  ∀ (mem val : Nat) (o : MemoryOrder) (spur : List Bool),
    fetch_op_builtin op mem val o = atomic_fetch_op op mem val o spur
    ∧ op_fetch_builtin op mem val o = atomic_op_fetch op mem val o spur

/-! ## Atomic reference view

`AtomicDataElement` (`Kokkos_Atomic_View.hpp`): a proxy bound to one element
address.  Only the binary non-mutating operators needed by claim C4 are
modelled; each is written exactly as the source writes it. -/

/-- `AtomicDataElement::operator%` as written at `Kokkos_Atomic_View.hpp`
lines 181-184: `return atomic_load(ptr,memory_order_relaxed) ^ val;` —
an xor, not a modulo. -/
def atomicDataElement_mod (mem val : Nat) : Nat :=
  atomic_load mem MemoryOrder.Relaxed ^^^ val

/-- `AtomicDataElement::operator||` as written at `Kokkos_Atomic_View.hpp`
lines 196-199: `return atomic_load(ptr,memory_order_relaxed) | val;` —
a bitwise or, not a logical or. -/
def atomicDataElement_lor (mem val : Nat) : Nat :=
  atomic_load mem MemoryOrder.Relaxed ||| val

/-- `AtomicDataElement::operator+` (`Kokkos_Atomic_View.hpp` lines 161-164):
relaxed load plus the operand, width `w`. -/
def atomicDataElement_add (w : Nat) (mem val : Nat) : Nat :=
  addOp w (atomic_load mem MemoryOrder.Relaxed) val

/-- The C++ result of the expression `x || y` on integers, converted back to
the value type: 1 when either operand is nonzero, else 0.  Used only to state
what claim C4 says `AtomicDataElement::operator||` should compute. -/
def cpp_logical_or (a b : Nat) : Nat :=
  if a ≠ 0 ∨ b ≠ 0 then 1 else 0

/-! ## Legacy compatibility shim

`Kokkos_Atomic_Deprecated.hpp` forwards each volatile-pointer call to the
ordering-aware primitive with no explicit ordering argument, so the
primitive's default ordering applies.  The defaults are those of the
signatures in `Kokkos_Atomic_GNU.hpp`: `memory_order_acq_rel` for the
fetch-ops and exchange, `memory_order_release` for `atomic_store`.  To reason
about which ordering a call used, an order-annotated semantics records the
ordering alongside the value effect. -/

/-- An order-annotated operation outcome: returned value, new cell value, and
the memory ordering the underlying primitive was invoked with. -/
structure AnnotatedOp (α : Type) where
  result : α
  newMem : α
  order : MemoryOrder
deriving DecidableEq, Repr

/-- Order-annotated `atomic_store` (a store returns nothing; `result` is the
stored value). -/
def atomic_store_ann (_mem val : α) (o : MemoryOrder) : AnnotatedOp α :=
  { result := val, newMem := val, order := o }

/-- Order-annotated arithmetic fetch-then-op primitive at width `w`. -/
def atomic_fetch_op_ann (op : Nat → Nat → Nat) (mem val : Nat)
    (o : MemoryOrder) : AnnotatedOp Nat :=
  { result := mem, newMem := op mem val, order := o }

/-- Default ordering of `atomic_store` (`Kokkos_Atomic_GNU.hpp` lines
143-171: `Order = memory_order_release`). -/
def atomic_store_default_order : MemoryOrder := MemoryOrder.Release

/-- Default ordering of the fetch-op / op-fetch catalog entries
(`Kokkos_Atomic_GNU.hpp`: `Order = memory_order_acq_rel` throughout). -/
def atomic_fetch_op_default_order : MemoryOrder := MemoryOrder.AcqRel

/-- Deprecated `atomic_assign(volatile T*, val)`
(`Kokkos_Atomic_Deprecated.hpp` lines 89-94): discards volatile and forwards
to `atomic_store` with no ordering argument, hence the store default. -/
def atomic_assign_deprecated (mem val : α) : AnnotatedOp α :=
  atomic_store_ann mem val atomic_store_default_order

/-- Deprecated `atomic_fetch_add(volatile T*, val)`
(`Kokkos_Atomic_Deprecated.hpp` lines 119-124): forwards to
`atomic_fetch_add` with no ordering argument, hence the fetch-op default. -/
def atomic_fetch_add_deprecated (w : Nat) (mem val : Nat) : AnnotatedOp Nat :=
  atomic_fetch_op_ann (addOp w) mem val atomic_fetch_op_default_order

/-- Deprecated `atomic_fetch_sub(volatile T*, val)`
(`Kokkos_Atomic_Deprecated.hpp` lines 126-131). -/
def atomic_fetch_sub_deprecated (w : Nat) (mem val : Nat) : AnnotatedOp Nat :=
  atomic_fetch_op_ann (subOp w) mem val atomic_fetch_op_default_order

/-- Deprecated `atomic_fetch_and(volatile T*, val)`
(`Kokkos_Atomic_Deprecated.hpp` lines 175-180). -/
def atomic_fetch_and_deprecated (w : Nat) (mem val : Nat) : AnnotatedOp Nat :=
  atomic_fetch_op_ann (andOp w) mem val atomic_fetch_op_default_order

/-- Deprecated `atomic_fetch_or(volatile T*, val)`
(`Kokkos_Atomic_Deprecated.hpp` lines 189-194). -/
def atomic_fetch_or_deprecated (w : Nat) (mem val : Nat) : AnnotatedOp Nat :=
  atomic_fetch_op_ann (orOp w) mem val atomic_fetch_op_default_order

/-- Deprecated `atomic_fetch_xor(volatile T*, val)`
(`Kokkos_Atomic_Deprecated.hpp` lines 203-208). -/
def atomic_fetch_xor_deprecated (w : Nat) (mem val : Nat) : AnnotatedOp Nat :=
  atomic_fetch_op_ann (xorOp w) mem val atomic_fetch_op_default_order

/-! ## Concurrent executions of the CAS-loop engine

For claim C10 the generic-path counter is modelled as a shared cell, and each
thread executes `Impl::atomic_fetch_op( AddOper, ptr, 1, order )` repeatedly.
A step of the interleaving semantics is one primitive builtin operation — a
Relaxed atomic load or one weak compare-exchange attempt — exactly the
indivisible units the GCC builtins provide.  Threads interleave arbitrarily,
and a weak CAS attempt may fail spuriously at any time. -/

/-- State of one thread running `M` calls of `atomic_fetch_add(p, 1)`:
`idle rem` — between calls, `rem` calls still to perform;
`pend remPred expected` — inside the CAS loop of one call (so
`remPred + 1` calls are still to complete), with local `expected` holding the
last value read from the cell; the pending attempt will offer
`desired = expected + 1`. -/
inductive TState
  | idle (rem : Nat)
  | pend (remPred : Nat) (expected : Nat)
deriving DecidableEq, Repr

/-- Number of fetch-add calls a thread still has to complete. -/
def TState.rem : TState → Nat
  | .idle r => r
  | .pend r _ => r + 1

/-- A configuration: the shared counter cell and the state of every thread. -/
structure Config where
  counter : Nat
  threads : List TState
deriving DecidableEq, Repr

/-- Initial configuration: counter zero, `n` threads each with `m` calls of
`atomic_fetch_add(p, 1)` to perform. -/
def initialConfig (n m : Nat) : Config :=
  { counter := 0, threads := List.replicate n (TState.idle m) }

/-- One interleaving step.  `load`: a thread starting a call performs the
Relaxed atomic load of the cell into its `expected`.  `casOk`: a pending
weak-CAS attempt whose `expected` matches the cell succeeds, indivisibly
installing `expected + 1`.  `casFail`: a weak-CAS attempt fails — because the
cell moved on or spuriously — and refreshes the thread's `expected` with the
current cell value (the thread will recompute `desired` from it, per the
loop body). -/
inductive Step : Config → Config → Prop
  | load (c : Config) (i r : Nat)
      (h : c.threads[i]? = some (TState.idle (r + 1))) :
      Step c { counter := c.counter
               threads := c.threads.set i (TState.pend r c.counter) }
  | casOk (c : Config) (i r : Nat)
      (h : c.threads[i]? = some (TState.pend r c.counter)) :
      Step c { counter := c.counter + 1
               threads := c.threads.set i (TState.idle r) }
  | casFail (c : Config) (i r e : Nat)
      (h : c.threads[i]? = some (TState.pend r e)) :
      Step c { counter := c.counter
               threads := c.threads.set i (TState.pend r c.counter) }

/-- Reachability under arbitrary interleavings. -/
def Reachable : Config → Config → Prop :=
  Relation.ReflTransGen Step

/-- Total number of fetch-add calls still to complete across all threads. -/
def sumRem (l : List TState) : Nat :=
  (l.map TState.rem).sum

/-! ## Helper lemmas -/

/-- A CAS retry loop whose `expected` equals the cell value terminates with
the cell pre-image and installs `op mem val`, regardless of the
spurious-failure schedule. -/
theorem casLoopRun_self [DecidableEq α] (op : α → α → α) (val : α)
    (spur : List Bool) (mem : α) :
    casLoopRun op val spur mem mem = (mem, op mem val) := by
  induction spur with
  | nil => simp [casLoopRun]
  | cons s rest ih =>
    cases s
    · simp [casLoopRun]
    · simp [casLoopRun, ih]

/-- Setting one list element changes `sumRem` by the difference of the
removed and the inserted element. -/
theorem sumRem_set (l : List TState) (i : Nat) (x y : TState)
    (h : l[i]? = some x) :
    sumRem (l.set i y) + x.rem = sumRem l + y.rem := by
  induction l generalizing i with
  | nil => simp at h
  | cons a t ih =>
    cases i with
    | zero =>
      simp at h
      subst h
      simp [sumRem]
      omega
    | succ j =>
      simp at h
      have hj := ih j h
      simp [sumRem] at hj ⊢
      omega

/-- Every interleaving step preserves `counter + sumRem threads`: a load or a
failed CAS changes neither, and a successful CAS moves one unit from the
outstanding work to the counter. -/
theorem step_invariant {c d : Config} (h : Step c d) :
    d.counter + sumRem d.threads = c.counter + sumRem c.threads := by
  cases h with
  | load i r hget =>
    have hs := sumRem_set c.threads i _ (TState.pend r c.counter) hget
    simp [TState.rem] at hs ⊢
    omega
  | casOk i r hget =>
    have hs := sumRem_set c.threads i _ (TState.idle r) hget
    simp [TState.rem] at hs ⊢
    omega
  | casFail i r e hget =>
    have hs := sumRem_set c.threads i _ (TState.pend r c.counter) hget
    simp [TState.rem] at hs ⊢
    omega

/-- The step invariant holds along every reachable execution. -/
theorem reachable_invariant {c d : Config} (h : Reachable c d) :
    d.counter + sumRem d.threads = c.counter + sumRem c.threads := by
  induction h with
  | refl => rfl
  | tail _ hstep ih =>
    have := step_invariant hstep
    omega

/-- Deadlock-freedom: in a configuration with no enabled step, every thread
has finished all its calls (a thread between calls can always load, and a
pending thread can always attempt its CAS). -/
theorem terminal_all_done {c : Config} (hterm : ∀ d, ¬ Step c d) :
    ∀ s ∈ c.threads, s = TState.idle 0 := by
  intro s hs
  obtain ⟨i, hi, hgi⟩ := List.mem_iff_getElem.mp hs
  have hsome : c.threads[i]? = some s := by
    rw [List.getElem?_eq_getElem hi, hgi]
  cases s with
  | idle r =>
    cases r with
    | zero => rfl
    | succ k => exact absurd (Step.load c i k hsome) (hterm _)
  | pend r e => exact absurd (Step.casFail c i r e hsome) (hterm _)

/-- If every thread is done, no fetch-add calls are outstanding. -/
theorem sumRem_eq_zero {l : List TState}
    (h : ∀ s ∈ l, s = TState.idle 0) :
    sumRem l = 0 := by
  refine List.sum_eq_zero ?_
  intro x hx
  obtain ⟨s, hsl, rfl⟩ := List.mem_map.mp hx
  rw [h s hsl]
  rfl

/-- Outstanding work of the initial configuration: `n` threads times `m`
calls. -/
theorem sumRem_replicate (n m : Nat) :
    sumRem (List.replicate n (TState.idle m)) = n * m := by
  simp [sumRem, List.map_replicate, TState.rem, List.sum_replicate,
        smul_eq_mul]

/-- The builtin/loop agreement of claim C6 holds for every operation
function, because in a run with no interfering writer the loop's first
non-spurious attempt sees `expected` equal to the cell and installs
`op mem val`. -/
theorem builtin_agrees_any (op : Nat → Nat → Nat) :
    builtin_agrees_with_loop op := by
  intro mem val o spur
  constructor <;>
    simp [fetch_op_builtin, op_fetch_builtin, atomic_fetch_op,
          atomic_op_fetch, atomic_load, casLoopRun_self]

/-! ## Claim theorems -/

/-- Claim C1 (evaluation at the failing input): on the explicit path
`atomic_exchange` returns the prior cell value 1 and installs 2, and a
subsequent `atomic_load` returns 2; but the generic-path overload as written
returns the never-written local `ret` (junk value 0, say) instead of the
prior value 1, because it invokes `__atomic_store` where `__atomic_exchange`
was intended. -/
theorem atomic_exchange_generic_bug_eval :
    atomic_exchange_explicit (α := Nat) 1 2 MemoryOrder.AcqRel = (1, 2)
    ∧ atomic_load
        ((atomic_exchange_explicit (α := Nat) 1 2 MemoryOrder.AcqRel).2)
        MemoryOrder.Acquire = 2
    ∧ atomic_exchange_generic (α := Nat) 1 2 0 MemoryOrder.AcqRel = (0, 2)
    ∧ (atomic_exchange_generic (α := Nat) 1 2 0 MemoryOrder.AcqRel).1 ≠ 1 := by
  decide

/-- Claim C2: the strong compare-exchange never fails spuriously — when the
cell equals `*expected` it returns true, installs `desired` and leaves
`*expected` unchanged; when the cell differs it returns false, leaves the
cell unchanged and overwrites `*expected` with the pre-call cell value. -/
theorem atomic_compare_exchange_strong_spec [DecidableEq α]
    (mem expected desired : α) (so fo : MemoryOrder) :
    (mem = expected →
      (atomic_compare_exchange mem expected desired so fo).success = true
      ∧ (atomic_compare_exchange mem expected desired so fo).mem = desired
      ∧ (atomic_compare_exchange mem expected desired so fo).expected
          = expected)
    ∧ (mem ≠ expected →
      (atomic_compare_exchange mem expected desired so fo).success = false
      ∧ (atomic_compare_exchange mem expected desired so fo).mem = mem
      ∧ (atomic_compare_exchange mem expected desired so fo).expected
          = mem) := by
  constructor
  · intro h
    simp [atomic_compare_exchange, h]
  · intro h
    simp [atomic_compare_exchange, h]

/-- Witness for C2 at concrete inputs: equal case (3, 3, 5) and unequal case
(4, 3, 5). -/
theorem atomic_compare_exchange_strong_spec_witness :
    ((atomic_compare_exchange (α := Nat) 3 3 5
        MemoryOrder.AcqRel MemoryOrder.Relaxed).success = true
      ∧ (atomic_compare_exchange (α := Nat) 3 3 5
          MemoryOrder.AcqRel MemoryOrder.Relaxed).mem = 5
      ∧ (atomic_compare_exchange (α := Nat) 3 3 5
          MemoryOrder.AcqRel MemoryOrder.Relaxed).expected = 3)
    ∧ ((atomic_compare_exchange (α := Nat) 4 3 5
        MemoryOrder.AcqRel MemoryOrder.Relaxed).success = false
      ∧ (atomic_compare_exchange (α := Nat) 4 3 5
          MemoryOrder.AcqRel MemoryOrder.Relaxed).mem = 4
      ∧ (atomic_compare_exchange (α := Nat) 4 3 5
          MemoryOrder.AcqRel MemoryOrder.Relaxed).expected = 4) :=
  ⟨(atomic_compare_exchange_strong_spec 3 3 5 MemoryOrder.AcqRel
      MemoryOrder.Relaxed).1 rfl,
   (atomic_compare_exchange_strong_spec 4 3 5 MemoryOrder.AcqRel
      MemoryOrder.Relaxed).2 (by decide)⟩

/-- Claim C3 counterexample: the compile-time table accepts the pair
(success = SeqCst, failure = SeqCst), whose failure order is neither Relaxed
nor Acquire, so the claimed characterization rejects a pair the code
accepts. -/
theorem cas_order_claim_counterexample :
    valid_atomic_compare_exchange_order MemoryOrder.SeqCst MemoryOrder.SeqCst
      = true
    ∧ claimed_cas_order_valid MemoryOrder.SeqCst MemoryOrder.SeqCst
      = false := by
  decide

/-- Claim C3 (amended): the compile-time validity predicate for
compare-exchange accepts exactly those (success, failure) pairs in which the
failure order is Relaxed, Acquire or SeqCst, the failure order is no stronger
than the success order, and the failure order is never Release or AcqRel. -/
theorem cas_order_amended_characterization (s f : MemoryOrder) :
    valid_atomic_compare_exchange_order s f = amended_cas_order_valid s f := by
  cases s <;> cases f <;> decide

/-- Witness for C3 (amended) at the pair (AcqRel, Acquire). -/
theorem cas_order_amended_characterization_witness :
    valid_atomic_compare_exchange_order MemoryOrder.AcqRel MemoryOrder.Acquire
      = amended_cas_order_valid MemoryOrder.AcqRel MemoryOrder.Acquire :=
  cas_order_amended_characterization MemoryOrder.AcqRel MemoryOrder.Acquire

/-- Claim C4 (evaluation at the failing inputs): `AtomicDataElement`
`operator%` applied to a cell holding 5 and operand 3 yields `5 xor 3 = 6`
instead of `5 % 3 = 2`, and `operator||` applied to a cell holding 2 and
operand 0 yields the bitwise `2 ||| 0 = 2` instead of the logical result 1;
so these operators do not apply the same operator to the relaxed load. -/
theorem atomic_view_mod_lor_bug_eval :
    atomicDataElement_mod 5 3 = 6
    ∧ (5 : Nat) % 3 = 2
    ∧ atomicDataElement_mod 5 3 ≠ 5 % 3
    ∧ atomicDataElement_lor 2 0 = 2
    ∧ cpp_logical_or 2 0 = 1
    ∧ atomicDataElement_lor 2 0 ≠ cpp_logical_or 2 0 := by
  decide

/-- Claim C5 counterexample: the legacy `atomic_assign` forwards to
`atomic_store` with the store default ordering, which is Release, not the
Relaxed ordering the claim states. -/
theorem atomic_assign_release_counterexample :
    (atomic_assign_deprecated (α := Nat) 0 7).order = MemoryOrder.Release
    ∧ (atomic_assign_deprecated (α := Nat) 0 7).order
        ≠ MemoryOrder.Relaxed := by
  decide

/-- Claim C5 (amended): each legacy volatile-pointer call without an ordering
argument is observably equivalent — value effect and ordering — to the
ordering-aware primitive at the documented implicit ordering: AcqRel for the
plain fetch-ops, Release (the store default) for plain store/assign. -/
theorem deprecated_shim_order_equivalence (w mem val : Nat) :
    atomic_fetch_add_deprecated w mem val
      = atomic_fetch_op_ann (addOp w) mem val MemoryOrder.AcqRel
    ∧ atomic_fetch_sub_deprecated w mem val
      = atomic_fetch_op_ann (subOp w) mem val MemoryOrder.AcqRel
    ∧ atomic_fetch_and_deprecated w mem val
      = atomic_fetch_op_ann (andOp w) mem val MemoryOrder.AcqRel
    ∧ atomic_fetch_or_deprecated w mem val
      = atomic_fetch_op_ann (orOp w) mem val MemoryOrder.AcqRel
    ∧ atomic_fetch_xor_deprecated w mem val
      = atomic_fetch_op_ann (xorOp w) mem val MemoryOrder.AcqRel
    ∧ atomic_assign_deprecated mem val
      = atomic_store_ann mem val MemoryOrder.Release :=
  ⟨rfl, rfl, rfl, rfl, rfl, rfl⟩

/-- Witness for C5 (amended) at width 8, cell 1, operand 2. -/
theorem deprecated_shim_order_equivalence_witness :
    atomic_fetch_add_deprecated 8 1 2
      = atomic_fetch_op_ann (addOp 8) 1 2 MemoryOrder.AcqRel
    ∧ atomic_fetch_sub_deprecated 8 1 2
      = atomic_fetch_op_ann (subOp 8) 1 2 MemoryOrder.AcqRel
    ∧ atomic_fetch_and_deprecated 8 1 2
      = atomic_fetch_op_ann (andOp 8) 1 2 MemoryOrder.AcqRel
    ∧ atomic_fetch_or_deprecated 8 1 2
      = atomic_fetch_op_ann (orOp 8) 1 2 MemoryOrder.AcqRel
    ∧ atomic_fetch_xor_deprecated 8 1 2
      = atomic_fetch_op_ann (xorOp 8) 1 2 MemoryOrder.AcqRel
    ∧ atomic_assign_deprecated (α := Nat) 1 2
      = atomic_store_ann 1 2 MemoryOrder.Release :=
  deprecated_shim_order_equivalence 8 1 2

/-- Claim C6 counterexample: C++ `bool` is an explicit-path integral type
(non-volatile, integral, one byte), yet `arithmetic_atomic_op` rejects it, so
its catalog operations dispatch to the CAS-loop (`non_arithmetic`) overloads
rather than the hardware fetch-and-operate builtin. -/
theorem bool_dispatch_counterexample :
    explicit_atomic_op true boolTypeModel = true
    ∧ arithmetic_atomic_op true boolTypeModel = false
    ∧ non_arithmetic_atomic_op true boolTypeModel = true := by
  decide

/-- Claim C6 (amended): for every non-volatile type that is a pointer or an
integral type other than bool with size at most the maximum atomic-integer
width, the dispatch predicate selects the hardware-builtin overload for add,
sub, and, or, xor and nand, and in both fetch-then-op and op-then-fetch form
the builtin produces exactly the value and cell contents the CAS-loop
synthesis would produce. -/
theorem arithmetic_builtin_agreement (int128 : Bool) (T : TypeModel)
    (hvol : T.is_volatile = false)
    (hT : T.is_pointer = true
          ∨ (T.is_integral = true ∧ T.size ≤ max_atomic_integer_size int128
             ∧ T.is_bool = false)) :
    arithmetic_atomic_op int128 T = true
    ∧ ∀ w : Nat,
        builtin_agrees_with_loop (addOp w)
        ∧ builtin_agrees_with_loop (subOp w)
        ∧ builtin_agrees_with_loop (andOp w)
        ∧ builtin_agrees_with_loop (orOp w)
        ∧ builtin_agrees_with_loop (xorOp w)
        ∧ builtin_agrees_with_loop (nandOp w) := by
  constructor
  · rcases hT with hp | ⟨hi, hs, hb⟩
    · simp [arithmetic_atomic_op, hvol, hp]
    · simp [arithmetic_atomic_op, hvol, hi, hb, hs]
  · intro w
    exact ⟨builtin_agrees_any _, builtin_agrees_any _, builtin_agrees_any _,
           builtin_agrees_any _, builtin_agrees_any _, builtin_agrees_any _⟩

/-- Witness for C6 (amended) at the `int` type model (no int128) and a
concrete add at width 8, cell 200, operand 100. -/
theorem arithmetic_builtin_agreement_witness :
    arithmetic_atomic_op false intTypeModel = true
    ∧ fetch_op_builtin (addOp 8) 200 100 MemoryOrder.AcqRel
        = atomic_fetch_op (addOp 8) 200 100 MemoryOrder.AcqRel [] := by
  have h := arithmetic_builtin_agreement false intTypeModel rfl
    (Or.inr ⟨rfl, by decide, rfl⟩)
  exact ⟨h.1, ((h.2 8).1 200 100 MemoryOrder.AcqRel []).1⟩

/-- Claim C7: for every operation function, in a single-threaded run the
fetch-then-op form returns the pre-image and installs `op mem val`, the
op-then-fetch form returns exactly the value it installed, and
`op_fetch = Op(fetch_op, val)`; the same relations hold for the hardware
builtin forms. -/
theorem fetch_op_op_fetch_relation [DecidableEq α] (op : α → α → α)
    (mem val : α) (o : MemoryOrder) (spur : List Bool) :
    (atomic_fetch_op op mem val o spur).1 = mem
    ∧ (atomic_fetch_op op mem val o spur).2 = op mem val
    ∧ (atomic_op_fetch op mem val o spur).1
        = op (atomic_fetch_op op mem val o spur).1 val
    ∧ (atomic_op_fetch op mem val o spur).1
        = (atomic_op_fetch op mem val o spur).2
    ∧ (fetch_op_builtin op mem val o).1 = mem
    ∧ (op_fetch_builtin op mem val o).1
        = op (fetch_op_builtin op mem val o).1 val := by
  simp [atomic_fetch_op, atomic_op_fetch, atomic_load, casLoopRun_self,
        fetch_op_builtin, op_fetch_builtin]

/-- Witness for C7 at the width-8 add, cell 200, operand 100, one scheduled
spurious failure. -/
theorem fetch_op_op_fetch_relation_witness :
    (atomic_fetch_op (addOp 8) 200 100 MemoryOrder.AcqRel [true]).1 = 200
    ∧ (atomic_fetch_op (addOp 8) 200 100 MemoryOrder.AcqRel [true]).2
        = addOp 8 200 100
    ∧ (atomic_op_fetch (addOp 8) 200 100 MemoryOrder.AcqRel [true]).1
        = addOp 8
            (atomic_fetch_op (addOp 8) 200 100 MemoryOrder.AcqRel [true]).1
            100
    ∧ (atomic_op_fetch (addOp 8) 200 100 MemoryOrder.AcqRel [true]).1
        = (atomic_op_fetch (addOp 8) 200 100 MemoryOrder.AcqRel [true]).2
    ∧ (fetch_op_builtin (addOp 8) 200 100 MemoryOrder.AcqRel).1 = 200
    ∧ (op_fetch_builtin (addOp 8) 200 100 MemoryOrder.AcqRel).1
        = addOp 8 (fetch_op_builtin (addOp 8) 200 100 MemoryOrder.AcqRel).1
            100 :=
  fetch_op_op_fetch_relation (addOp 8) 200 100 MemoryOrder.AcqRel [true]

/-- Claim C8: for non-volatile trivially-copyable types the dispatch layer
selects the explicit path exactly when the type is a pointer or an integral
type of size at most 16 bytes (with 128-bit support) or 8 bytes (without),
selects the generic path exactly otherwise, and the two predicates are
mutually exclusive and jointly exhaustive. -/
theorem dispatch_partition_spec (int128 : Bool) (T : TypeModel)
    (hvol : T.is_volatile = false)
    (_htc : T.is_trivially_copyable = true) :
    explicit_atomic_op int128 T
      = (T.is_pointer
         || (T.is_integral && decide (T.size ≤ if int128 then 16 else 8)))
    ∧ generic_atomic_op int128 T = !explicit_atomic_op int128 T
    ∧ (explicit_atomic_op int128 T && generic_atomic_op int128 T) = false
    ∧ (explicit_atomic_op int128 T || generic_atomic_op int128 T) = true := by
  have hexp : explicit_atomic_op int128 T
      = (T.is_pointer
         || (T.is_integral && decide (T.size ≤ if int128 then 16 else 8))) := by
    simp [explicit_atomic_op, hvol, max_atomic_integer_size]
  have hgen : generic_atomic_op int128 T = !explicit_atomic_op int128 T := by
    simp [explicit_atomic_op, generic_atomic_op, hvol]
  refine ⟨hexp, hgen, ?_, ?_⟩
  · rw [hgen]
    cases explicit_atomic_op int128 T <;> simp
  · rw [hgen]
    cases explicit_atomic_op int128 T <;> simp

/-- Witness for C8 at the `int` type model without 128-bit support. -/
theorem dispatch_partition_spec_witness :
    (explicit_atomic_op false intTypeModel
      = (intTypeModel.is_pointer
         || (intTypeModel.is_integral
             && decide (intTypeModel.size ≤ if false then 16 else 8))))
    ∧ generic_atomic_op false intTypeModel
        = !explicit_atomic_op false intTypeModel
    ∧ (explicit_atomic_op false intTypeModel
        && generic_atomic_op false intTypeModel) = false
    ∧ (explicit_atomic_op false intTypeModel
        || generic_atomic_op false intTypeModel) = true :=
  dispatch_partition_spec false intTypeModel rfl rfl

/-- Claim C9: the legacy volatile-pointer compare-exchange returns the newly
installed `val` whenever the underlying strong compare-exchange succeeds, and
the cell value observed by the failed attempt otherwise; on success the
returned value equals the pre-image exactly when `compare` equals `val`. -/
theorem deprecated_cas_return_spec [DecidableEq α] (mem compare val : α) :
    (mem = compare →
      (atomic_compare_exchange_deprecated mem compare val).1 = val
      ∧ (atomic_compare_exchange_deprecated mem compare val).2 = val
      ∧ ((atomic_compare_exchange_deprecated mem compare val).1 = mem
          ↔ compare = val))
    ∧ (mem ≠ compare →
      (atomic_compare_exchange_deprecated mem compare val).1 = mem
      ∧ (atomic_compare_exchange_deprecated mem compare val).2 = mem) := by
  constructor
  · intro h
    subst h
    simp [atomic_compare_exchange_deprecated, atomic_compare_exchange]
    exact eq_comm
  · intro h
    simp [atomic_compare_exchange_deprecated, atomic_compare_exchange, h]

/-- Witness for C9: success at (7, 7, 9) — returning 9, not the pre-image 7 —
and failure at (8, 7, 9) — returning the observed 8. -/
theorem deprecated_cas_return_spec_witness :
    ((atomic_compare_exchange_deprecated (α := Nat) 7 7 9).1 = 9
      ∧ (atomic_compare_exchange_deprecated (α := Nat) 7 7 9).2 = 9
      ∧ ((atomic_compare_exchange_deprecated (α := Nat) 7 7 9).1 = 7
          ↔ (7 : Nat) = 9))
    ∧ ((atomic_compare_exchange_deprecated (α := Nat) 8 7 9).1 = 8
      ∧ (atomic_compare_exchange_deprecated (α := Nat) 8 7 9).2 = 8) :=
  ⟨(deprecated_cas_return_spec 7 7 9).1 rfl,
   (deprecated_cas_return_spec 8 7 9).2 (by decide)⟩

/-- Claim C10: under arbitrary interleavings of the primitive atomic steps
(each one indivisible, and the interleaving itself providing the total
order), an execution of `n` threads each performing `m` calls of
`atomic_fetch_add(p, 1)` through the CAS-loop engine that reaches a
configuration with no enabled step has completed every call — no deadlock —
and the counter holds exactly `n * m`: no update is lost. -/
theorem no_lost_update (n m : Nat) (c : Config)
    (hreach : Reachable (initialConfig n m) c)
    (hterm : ∀ d, ¬ Step c d) :
    c.counter = n * m := by
  have hinv := reachable_invariant hreach
  have hzero := sumRem_eq_zero (terminal_all_done hterm)
  have hinit : sumRem (List.replicate n (TState.idle m)) = n * m :=
    sumRem_replicate n m
  simp [initialConfig] at hinv
  omega

/-- Witness for C10: one thread performs its single fetch-add (a load step
followed by a successful CAS step), reaching the terminal configuration with
counter 1 = 1 * 1. -/
theorem no_lost_update_witness :
    ({ counter := 1, threads := [TState.idle 0] } : Config).counter
      = 1 * 1 := by
  have hs1 : Step (initialConfig 1 1)
      { counter := 0, threads := [TState.pend 0 0] } :=
    Step.load (initialConfig 1 1) 0 0 rfl
  have hs2 : Step { counter := 0, threads := [TState.pend 0 0] }
      { counter := 1, threads := [TState.idle 0] } :=
    Step.casOk { counter := 0, threads := [TState.pend 0 0] } 0 0 rfl
  have hreach : Reachable (initialConfig 1 1)
      { counter := 1, threads := [TState.idle 0] } :=
    Relation.ReflTransGen.head hs1
      (Relation.ReflTransGen.head hs2 Relation.ReflTransGen.refl)
  have hterm : ∀ d, ¬ Step { counter := 1, threads := [TState.idle 0] } d := by
    intro d h
    cases h with
    | load i r hget =>
      rcases i with _ | i <;> simp_all
    | casOk i r hget =>
      rcases i with _ | i <;> simp_all
    | casFail i r e hget =>
      rcases i with _ | i <;> simp_all
  exact no_lost_update 1 1 _ hreach hterm

end KokkosSpec
